import Mathlib

/-!
# Verification of the docker-stats-service stream/ingestion pipeline

Shallow embedding of the core logic of the `docker-stats-service`
repository and proofs about it.  Each embedded definition is translated
from the JavaScript source file named in its doc comment; JavaScript
numbers are modelled as rationals (`Rat`), strings as `String`/`List Char`,
fallible code as `Option`/`Except`, and asynchronous completion as
explicit settle-time bookkeeping.
-/

set_option maxHeartbeats 1000000

namespace DSS

/-! ## Stream state machine (`src/services/docker/stream-manager.mjs`) -/

/-- Stream lifecycle states (`DockerTypes.StreamState`). -/
inductive StreamState where
  | starting
  | active
  | stopping
  | stopped
deriving DecidableEq, Repr

/-- Per-container mutable record kept in the stream manager's `streams`
map: text buffer, consecutive-error counter and lifecycle state
(the stream handle itself carries no state we track). -/
structure StreamInfo where
  buffer : List Char
  consecutiveErrors : Nat
  state : StreamState
deriving DecidableEq, Repr

/-- The `validTransitions` table of `transitionStreamState`
(`stream-manager.mjs` lines 53-58):
`starting: ['active','stopped']`, `active: ['stopping','stopped']`,
`stopping: ['stopped']`, `stopped: []`. -/
def validTransition : StreamState → StreamState → Bool
  | .starting, .active => true
  | .starting, .stopped => true
  | .active, .stopping => true
  | .active, .stopped => true
  | .stopping, .stopped => true
  | _, _ => false

/-- The stream manager's `streams` map (`Map<string, StreamInfo>`),
modelled as an association list keyed by container id. -/
def StreamMap : Type := List (String × StreamInfo)

/-- `streams.get(containerId)`. -/
def lookupStream (streams : StreamMap) (containerId : String) : Option StreamInfo :=
  match List.find? (fun p => p.1 == containerId) streams with
  | some p => some p.2
  | none => none

/-- In-place mutation `streamInfo.state = newState` of the record stored
under `containerId`. -/
def setStreamState (streams : StreamMap) (containerId : String) (s : StreamState) : StreamMap :=
  List.map (fun p => if p.1 == containerId then (p.1, { p.2 with state := s }) else p) streams

/-- `transitionStreamState(containerId, newState)`
(`stream-manager.mjs` lines 48-69): returns the updated map and whether
the transition was applied.  A missing stream or an entry not listed in
`validTransitions` leaves the map unchanged and returns `false`. -/
def transitionStreamState (streams : StreamMap) (containerId : String)
    (newState : StreamState) : StreamMap × Bool :=
  match lookupStream streams containerId with
  | none => (streams, false)
  | some info =>
    if validTransition info.state newState then
      (setStreamState streams containerId newState, true)
    else
      (streams, false)

/-- The five transitions the spec declares legal, stated as an explicit
enumeration (the claim's wording, to be compared with the code's table). -/
def legalFivePair (s t : StreamState) : Prop :=
  (s = .starting ∧ t = .active) ∨ (s = .starting ∧ t = .stopped) ∨
  (s = .active ∧ t = .stopping) ∨ (s = .active ∧ t = .stopped) ∨
  (s = .stopping ∧ t = .stopped)

instance (s t : StreamState) : Decidable (legalFivePair s t) := by
  unfold legalFivePair
  infer_instance

theorem validTransition_iff_legalFivePair (s t : StreamState) :
    validTransition s t = true ↔ legalFivePair s t := by
  cases s <;> cases t <;> simp [validTransition, legalFivePair]

theorem transitionStreamState_not_legal_unchanged (streams : StreamMap)
    (containerId : String) (info : StreamInfo) (newState : StreamState)
    (hl : lookupStream streams containerId = some info)
    (hn : ¬ legalFivePair info.state newState) :
    transitionStreamState streams containerId newState = (streams, false) := by
  have hv : validTransition info.state newState = false := by
    rcases h : validTransition info.state newState with _ | _
    · rfl
    · exact absurd ((validTransition_iff_legalFivePair _ _).mp h) hn
  simp [transitionStreamState, hl, hv]

/-- **C1.** For every `StreamInfo` owned by the stream manager, a requested
transition via `transitionStreamState` succeeds (returns `true`) exactly
when it is one of the five legal transitions `starting→active`,
`starting→stopped`, `active→stopping`, `active→stopped`,
`stopping→stopped`; every other requested transition returns `false` and
leaves the entire stream map (state included) unchanged. -/
theorem streamState_five_legal_transitions (streams : StreamMap)
    (containerId : String) (info : StreamInfo) (newState : StreamState)
    (hl : lookupStream streams containerId = some info) :
    ((transitionStreamState streams containerId newState).2 = true ↔
      legalFivePair info.state newState) ∧
    (¬ legalFivePair info.state newState →
      transitionStreamState streams containerId newState = (streams, false)) := by
  constructor
  · constructor
    · intro hsucc
      by_cases hv : validTransition info.state newState = true
      · exact (validTransition_iff_legalFivePair _ _).mp hv
      · rw [Bool.not_eq_true] at hv
        simp [transitionStreamState, hl, hv] at hsucc
    · intro hlegal
      have hv := (validTransition_iff_legalFivePair info.state newState).mpr hlegal
      simp [transitionStreamState, hl, hv]
  · exact transitionStreamState_not_legal_unchanged streams containerId info newState hl

/-- Witness for C1: in a one-entry map whose stream is `active`, the
illegal request `active→starting` is rejected and changes nothing, while
the iff instantiates at a concrete state pair. -/
theorem streamState_five_legal_transitions_witness :
    ((transitionStreamState [("c1", ⟨[], 0, .active⟩)] "c1" .starting).2 = true ↔
      legalFivePair StreamState.active .starting) ∧
    (¬ legalFivePair StreamState.active .starting →
      transitionStreamState [("c1", ⟨[], 0, .active⟩)] "c1" .starting =
        ([("c1", ⟨[], 0, .active⟩)], false)) :=
  streamState_five_legal_transitions [("c1", ⟨[], 0, .active⟩)] "c1"
    ⟨[], 0, .active⟩ .starting (by decide)

/-! ## Buffering and line extraction
(`src/services/docker/stats-parser.mjs`, `processBuffer`) -/

/-- The two size caps `config.docker.stats.maxBufferSize` and
`config.docker.stats.maxLineSize` read by `processBuffer`
(defaults 1048576 and 102400 in `config.mjs`). -/
structure StatsBufferConfig where
  maxBufferSize : Nat
  maxLineSize : Nat
deriving DecidableEq, Repr

/-- Characters removed by JavaScript `String.prototype.trim()` (the
common ASCII whitespace; `trim` also strips other Unicode whitespace,
which never occurs in the newline-delimited JSON handled here). -/
def isJsSpace (c : Char) : Bool :=
  c = ' ' || c = '\n' || c = '\t' || c = '\r'

/-- `line.trim()`. -/
def trimChars (s : List Char) : List Char :=
  ((s.dropWhile isJsSpace).reverse.dropWhile isJsSpace).reverse

/-- `remainingBuffer.indexOf('\n')` together with the two `slice` calls:
`some (before, after)` splits at the first newline
(`before = slice(0, boundary)`, `after = slice(boundary + 1)`),
`none` when the buffer holds no newline. -/
def breakAtNewline : List Char → Option (List Char × List Char)
  | [] => none
  | c :: cs =>
    if c = '\n' then some ([], cs)
    else (breakAtNewline cs).map (fun p => (c :: p.1, p.2))

theorem breakAtNewline_after_lt (buf : List Char) (p : List Char × List Char)
    (h : breakAtNewline buf = some p) : p.2.length < buf.length := by
  induction buf generalizing p with
  | nil => simp [breakAtNewline] at h
  | cons c cs ih =>
    by_cases hc : c = '\n'
    · simp [breakAtNewline, hc] at h
      subst h
      simp
    · simp [breakAtNewline, hc] at h
      rcases h with ⟨a, b, hq, hqp⟩
      have := ih (a, b) hq
      rw [← hqp]
      simpa using Nat.lt_succ_of_lt this

/-- The `while (remainingBuffer.length > 0)` loop of `processBuffer`:
extracts trimmed non-empty complete lines in order; when no newline is
left, a fragment longer than `maxLineSize` is discarded (reset to the
empty buffer), otherwise kept as the remaining buffer. -/
def processLoop (maxLineSize : Nat) (buf : List Char) : List (List Char) × List Char :=
  match h : breakAtNewline buf with
  | none =>
    if buf.length > maxLineSize then ([], []) else ([], buf)
  | some (before, after) =>
    let line := trimChars before
    let r := processLoop maxLineSize after
    (if line.isEmpty then r.1 else line :: r.1, r.2)
termination_by buf.length
decreasing_by exact breakAtNewline_after_lt buf (before, after) h

/-- `processBuffer(currentBuffer, chunk)` (`stats-parser.mjs` lines
123-155): concatenates, runs the line-extraction loop, then resets the
remaining buffer to empty when it exceeds `maxBufferSize`. -/
def processBuffer (cfg : StatsBufferConfig) (currentBuffer chunk : List Char) :
    List (List Char) × List Char :=
  let buffer := currentBuffer ++ chunk
  let r := processLoop cfg.maxLineSize buffer
  let remainingBuffer := if r.2.length > cfg.maxBufferSize then [] else r.2
  (r.1, remainingBuffer)

/-- Feeding a sequence of chunks through `processBuffer`, as the stream
manager's data handler does (`streamInfo.buffer = remainingBuffer`);
returns the buffer left after the last chunk. -/
def runChunks (cfg : StatsBufferConfig) (buffer : List Char) :
    List (List Char) → List Char
  | [] => buffer
  | c :: cs => runChunks cfg (processBuffer cfg buffer c).2 cs

theorem processBuffer_remaining_le (cfg : StatsBufferConfig)
    (currentBuffer chunk : List Char) :
    (processBuffer cfg currentBuffer chunk).2.length ≤ cfg.maxBufferSize := by
  unfold processBuffer
  by_cases h :
      (processLoop cfg.maxLineSize (currentBuffer ++ chunk)).2.length > cfg.maxBufferSize
  · simp [h]
  · simp only [h, if_false]
    omega

/-- **C8.** For every initial buffer and every non-empty sequence of
chunks, the remaining buffer after processing the chunks through
`processBuffer` never exceeds `maxBufferSize`. -/
theorem buffer_bound_all_chunks (cfg : StatsBufferConfig)
    (buffer : List Char) (chunks : List (List Char)) (h : chunks ≠ []) :
    (runChunks cfg buffer chunks).length ≤ cfg.maxBufferSize := by
  induction chunks generalizing buffer with
  | nil => exact absurd rfl h
  | cons c cs ih =>
    rcases cs with _ | ⟨c', cs'⟩
    · simpa [runChunks] using processBuffer_remaining_le cfg buffer c
    · exact ih (processBuffer cfg buffer c).2 (by simp)

/-- Witness for C8: a single oversized chunk against a 4-byte cap leaves
a buffer within the cap. -/
theorem buffer_bound_all_chunks_witness :
    (runChunks ⟨4, 2⟩ [] [['x', 'y', 'z', 'a', 'b', 'c']]).length ≤ 4 :=
  buffer_bound_all_chunks ⟨4, 2⟩ [] [['x', 'y', 'z', 'a', 'b', 'c']] (by simp)

/-- The buffer step as the spec's words describe it (§4.2(a)): when
`len(buffer) + len(chunk)` exceeds the max buffer size, discard the old
buffer and process the new chunk alone; otherwise process the
concatenation.  Stated only for comparison with the source-derived
`processBuffer`. -/
def specWordedBufferStep (cfg : StatsBufferConfig) (currentBuffer chunk : List Char) :
    List (List Char) × List Char :=
  if currentBuffer.length + chunk.length > cfg.maxBufferSize then
    processBuffer cfg [] chunk
  else
    processBuffer cfg currentBuffer chunk

/-- **C2 (counterexample).** With a 3-byte max buffer size, old buffer
`"ab"` and chunk `"cd\n"` have combined length 5 > 3, yet `processBuffer`
extracts the line `"abcd"` — a line spanning the old buffer — instead of
starting fresh from the chunk alone (which would extract `"cd"`).  The
overflow branch of `processBuffer` only resets the post-extraction tail,
so the claimed discard-old-buffer behavior does not occur. -/
theorem buffer_overflow_discard_counterexample :
    ['a', 'b'].length + ['c', 'd', '\n'].length > (3 : Nat) ∧
    (processBuffer ⟨3, 100⟩ ['a', 'b'] ['c', 'd', '\n']).1 = [['a', 'b', 'c', 'd']] ∧
    (specWordedBufferStep ⟨3, 100⟩ ['a', 'b'] ['c', 'd', '\n']).1 = [['c', 'd']] ∧
    processBuffer ⟨3, 100⟩ ['a', 'b'] ['c', 'd', '\n'] ≠
      specWordedBufferStep ⟨3, 100⟩ ['a', 'b'] ['c', 'd', '\n'] := by
  refine ⟨by norm_num, ?_, ?_, ?_⟩ <;>
    simp [processBuffer, specWordedBufferStep, processLoop, breakAtNewline,
      trimChars, isJsSpace]

/-- **C2 (amended).** `processBuffer` concatenates the old buffer and the
chunk and extracts complete lines from the concatenation even when the
combined length exceeds `maxBufferSize` (so extracted lines may span the
old buffer); the overflow handling applies only to the tail left after
extraction: the returned remaining buffer never exceeds `maxBufferSize`,
and when the post-extraction tail exceeds it the remaining buffer is
reset to empty (discarding old and new tail data alike — data loss, not
a crash). -/
theorem processBuffer_overflow_behavior (cfg : StatsBufferConfig)
    (b c : List Char) (h : b.length + c.length > cfg.maxBufferSize) :
    (processBuffer cfg b c).1 = (processLoop cfg.maxLineSize (b ++ c)).1 ∧
    (processBuffer cfg b c).2.length ≤ cfg.maxBufferSize ∧
    ((processLoop cfg.maxLineSize (b ++ c)).2.length > cfg.maxBufferSize →
      (processBuffer cfg b c).2 = []) := by
  refine ⟨rfl, processBuffer_remaining_le cfg b c, ?_⟩
  intro hover
  simp [processBuffer, hover]

/-- Witness for the amended C2 at the counterexample's input. -/
theorem processBuffer_overflow_behavior_witness :
    (processBuffer ⟨3, 100⟩ ['a', 'b'] ['c', 'd', '\n']).1 =
      (processLoop 100 (['a', 'b'] ++ ['c', 'd', '\n'])).1 ∧
    (processBuffer ⟨3, 100⟩ ['a', 'b'] ['c', 'd', '\n']).2.length ≤ 3 ∧
    ((processLoop 100 (['a', 'b'] ++ ['c', 'd', '\n'])).2.length > 3 →
      (processBuffer ⟨3, 100⟩ ['a', 'b'] ['c', 'd', '\n']).2 = []) :=
  processBuffer_overflow_behavior ⟨3, 100⟩ ['a', 'b'] ['c', 'd', '\n'] (by norm_num)

/-! ## Retry with backoff and the influx error classifier
(`src/utils/common.mjs` `retryWithBackoff`,
`src/utils/influx.mjs` `isRetryableError` / `withInfluxRetry`) -/

/-- ASCII lower-casing, for the case-insensitive (`/i`) error patterns. -/
def asciiLower (c : Char) : Char :=
  if 'A' ≤ c ∧ c ≤ 'Z' then Char.ofNat (c.toNat + 32) else c

/-- Lower-cased message text. -/
def lowerStr (s : List Char) : List Char := s.map asciiLower

/-- Whether `s` starts with `pat`. -/
def startsWithChars : List Char → List Char → Bool
  | _, [] => true
  | [], _ :: _ => false
  | c :: cs, p :: ps => c = p && startsWithChars cs ps

/-- Whether `pat` occurs as a contiguous substring of `s`
(an unanchored literal regex such as `/ECONNREFUSED/`). -/
def hasSub (pat : List Char) : List Char → Bool
  | [] => startsWithChars [] pat
  | s@(_ :: rest) => startsWithChars s pat || hasSub pat rest

/-- The remainder of `s` after the first occurrence of `pat`,
`none` when `pat` does not occur. -/
def dropAfterSub (pat : List Char) : List Char → Option (List Char)
  | [] => if startsWithChars [] pat then some [] else none
  | s@(_ :: rest) =>
    if startsWithChars s pat then some (s.drop pat.length) else dropAfterSub pat rest

/-- A regex of literal parts joined by `.*` (such as
`/database.*not.*found/`): the parts occur in order. -/
def matchParts : List (List Char) → List Char → Bool
  | [], _ => true
  | p :: ps, s =>
    match dropAfterSub p s with
    | some rest => matchParts ps rest
    | none => false

/-- `FATAL_ERROR_PATTERNS` test (`influx.mjs` lines 47-51):
`/unauthorized|forbidden/i`, `/database.*not.*found/i`,
`/invalid.*database/i`, evaluated on the lower-cased message. -/
def fatalErrorMatch (lowered : List Char) : Bool :=
  hasSub "unauthorized".data lowered || hasSub "forbidden".data lowered ||
  matchParts ["database".data, "not".data, "found".data] lowered ||
  matchParts ["invalid".data, "database".data] lowered

/-- `RETRYABLE_ERROR_PATTERNS` lookup (`influx.mjs` lines 57-70), first
match wins: `ENOTFOUND`→10, `ECONNREFUSED`→10, `connect ETIMEDOUT`→5,
`No host available`→10 (all case-sensitive). -/
def retryablePatternBound (msg : List Char) : Option Nat :=
  if hasSub "ENOTFOUND".data msg then some 10
  else if hasSub "ECONNREFUSED".data msg then some 10
  else if hasSub "connect ETIMEDOUT".data msg then some 5
  else if hasSub "No host available".data msg then some 10
  else none

/-- The retry decision of `isRetryableError(error, attempt)`
(`influx.mjs` lines 78-102): fatal patterns never retry; a retryable
pattern retries while `attempt < maxAttempts`; anything else retries. -/
def isRetryableError (msg : List Char) (attempt : Nat) : Bool :=
  if fatalErrorMatch (lowerStr msg) then false
  else
    match retryablePatternBound msg with
    | some maxAttempts => attempt < maxAttempts
    | none => true

/-- The `for (attempt = 1; attempt <= maxRetries; ...)` loop of
`retryWithBackoff` (`common.mjs` lines 105-140), with backoff delays
abstracted away (they do not affect attempt counts or outcomes).
`fuel` is the number of loop iterations left
(`maxRetries - attempt + 1`); the fuel-exhausted case is the
`throw lastError` after the loop, reachable only when `maxRetries < 1`
(then `lastError` is still undefined, modelled as `Except.error none`).
Returns the outcome and the number of attempts performed. -/
def retryGo (op : Nat → Except (List Char) α) (sr : List Char → Nat → Bool)
    (maxRetries : Nat) : Nat → Nat → Except (Option (List Char)) α × Nat
  | _, 0 => (Except.error none, 0)
  | attempt, fuel + 1 =>
    match op attempt with
    | Except.ok a => (Except.ok a, attempt)
    | Except.error e =>
      if attempt = maxRetries || !(sr e attempt) then (Except.error (some e), attempt)
      else retryGo op sr maxRetries (attempt + 1) fuel

/-- `retryWithBackoff(operation, options)`. -/
def retryWithBackoff (op : Nat → Except (List Char) α) (sr : List Char → Nat → Bool)
    (maxRetries : Nat) : Except (Option (List Char)) α × Nat :=
  retryGo op sr maxRetries 1 maxRetries

/-- `withInfluxRetry(operation)` (`influx.mjs` lines 138-155): retry
with `shouldRetry` given by `isRetryableError`; `maxRetries` comes from
the client options (`config.influx.retry.maxRetries`, default 5). -/
def withInfluxRetry (op : Nat → Except (List Char) α) (maxRetries : Nat) :
    Except (Option (List Char)) α × Nat :=
  retryWithBackoff op (fun msg attempt => isRetryableError msg attempt) maxRetries

/-- Outcome and attempt count of an influx operation that fails every
time with the fixed message `errMsg`. -/
def influxFailRun (errMsg : List Char) (maxRetries : Nat) :
    Except (Option (List Char)) Unit × Nat :=
  withInfluxRetry (fun _ => Except.error errMsg) maxRetries

/-- The `maxRetries` the client actually runs with:
`DEFAULT_RETRY_OPTIONS.maxRetries` in `influx.mjs` and the
`INFLUXDB_RETRY_MAX` default `'5'` in `config.mjs` both give 5. -/
def defaultInfluxMaxRetries : Nat := 5

theorem retryGo_const_error_noretry {α : Type} (e : List Char)
    (sr : List Char → Nat → Bool) (maxRetries : Nat) (hsr : ∀ a, sr e a = false) (fuel attempt : Nat) (hf : 1 ≤ fuel) :
    retryGo (α := α) (fun _ => Except.error e) sr maxRetries attempt fuel =
      (Except.error (some e), attempt) := by
  rcases fuel with _ | f
  · omega
  · simp [retryGo, hsr]

theorem retryGo_const_error_bounded {α : Type} (e : List Char)
    (sr : List Char → Nat → Bool) (b maxRetries : Nat) (hsr : ∀ a, sr e a = decide (a < b)) :
    ∀ fuel attempt, attempt + fuel = maxRetries + 1 → 1 ≤ fuel →
    retryGo (α := α) (fun _ => Except.error e) sr maxRetries attempt fuel =
      (Except.error (some e), min maxRetries (max attempt b)) := by
  intro fuel
  induction fuel with
  | zero => intro attempt _ h2; omega
  | succ f ih =>
    intro attempt hsum _
    rcases Nat.eq_zero_or_pos f with hf0 | hfpos
    · subst hf0
      have ha : attempt = maxRetries := by omega
      subst ha
      simp [retryGo]
      try omega
    · have hlt : attempt < maxRetries := by omega
      have hne : decide (attempt = maxRetries) = false := by
        simp
        omega
      by_cases hb : attempt < b
      · have hcond : (decide (attempt = maxRetries) || !(sr e attempt)) = false := by
          simp [hsr, hne, hb]
        simp only [retryGo, hcond, Bool.false_eq_true, if_false]
        rw [ih (attempt + 1) (by omega) (by omega)]
        have hmm : min maxRetries (max (attempt + 1) b) = min maxRetries (max attempt b) := by
          omega
        rw [hmm]
      · have hcond : (decide (attempt = maxRetries) || !(sr e attempt)) = true := by
          simp [hsr, hne]
          omega
        simp only [retryGo, hcond, if_true]
        have hmm : attempt = min maxRetries (max attempt b) := by omega
        rw [← hmm]

/-- **C3 (counterexample).** With the client's configured
`maxRetries = 5`, an influx operation that always fails with a
connection-refused error surfaces after 5 attempts — not after the
pattern-specific bound of 10 the claim states: `retryWithBackoff` throws
as soon as `attempt === maxRetries`, so the ECONNREFUSED bound of 10 is
never reached. -/
theorem connrefused_attempts_counterexample :
    (influxFailRun "connect ECONNREFUSED 127.0.0.1:8086".data defaultInfluxMaxRetries).2 = 5 ∧
    (influxFailRun "connect ECONNREFUSED 127.0.0.1:8086".data defaultInfluxMaxRetries).2 ≠ 10 := by
  decide

/-- **C3 (amended).** In the retrying sink client, an error matching the
unauthorized pattern is attempted exactly once (zero retries, surfaced
immediately); an error matching the connection-refused pattern is
retried only while the attempt count is below both the pattern-specific
bound 10 and the generic `maxRetries`, surfacing after
`min maxRetries 10` attempts — 5 under the configured default
`maxRetries = 5`; the pattern bound 10 takes effect only when
`maxRetries` exceeds it. -/
theorem influx_fatal_one_attempt_connrefused_min (maxRetries : Nat)
    (h : 1 ≤ maxRetries) :
    influxFailRun "Error: unauthorized".data maxRetries =
      (Except.error (some "Error: unauthorized".data), 1) ∧
    (influxFailRun "connect ECONNREFUSED 127.0.0.1:8086".data maxRetries).2 =
      min maxRetries 10 := by
  constructor
  · exact retryGo_const_error_noretry "Error: unauthorized".data _ maxRetries
      (fun _ => rfl) maxRetries 1 h
  · have hb := retryGo_const_error_bounded (α := Unit)
      "connect ECONNREFUSED 127.0.0.1:8086".data
      (fun msg attempt => isRetryableError msg attempt) 10 maxRetries
      (fun _ => rfl) maxRetries 1 (by omega) h
    show (retryGo _ _ maxRetries 1 maxRetries).2 = min maxRetries 10
    rw [hb]
    simp

/-- Witness for the amended C3 at the configured default
`maxRetries = 5`. -/
theorem influx_fatal_one_attempt_connrefused_min_witness :
    influxFailRun "Error: unauthorized".data 5 =
      (Except.error (some "Error: unauthorized".data), 1) ∧
    (influxFailRun "connect ECONNREFUSED 127.0.0.1:8086".data 5).2 = min 5 10 :=
  influx_fatal_one_attempt_connrefused_min 5 (by norm_num)

/-! ## Graceful shutdown coordinator (`src/utils/shutdown.mjs`)

The coordinator is asynchronous; we model each registered handler by its
settle behavior (resolve/reject after `t` milliseconds, or never
settle), which is all `executeHandler` and `shutdown` observe. -/

/-- One registered shutdown handler's asynchronous behavior. -/
inductive HandlerBehavior where
  | resolvesAt (t : Nat)
  | rejectsAt (t : Nat)
  | neverSettles
deriving DecidableEq, Repr

/-- `executeHandler(name, handler, timeout)` races the handler against a
`setTimeout` rejection inside a `try/catch` that swallows every error,
so it always resolves, at the earlier of the handler's settle time and
the timeout (a never-settling handler loses the race at `timeout`). -/
def executeHandlerSettleTime (b : HandlerBehavior) (timeout : Nat) : Nat :=
  match b with
  | .resolvesAt t => min t timeout
  | .rejectsAt t => min t timeout
  | .neverSettles => timeout

/-- `shutdown(signal)` maps `executeHandler` over every registered
handler, awaits `Promise.allSettled` (which resolves when the last one
settles — time `max` over the handlers, 0 for an empty registry) and
then calls `process.exit(0)` in the `finally` block. -/
def shutdownExitTime (handlers : List HandlerBehavior) (timeout : Nat) : Nat :=
  (handlers.map (fun b => executeHandlerSettleTime b timeout)).foldr max 0

theorem executeHandlerSettleTime_le (b : HandlerBehavior) (timeout : Nat) :
    executeHandlerSettleTime b timeout ≤ timeout := by
  cases b <;> simp [executeHandlerSettleTime]

/-- **C7.** Once shutdown is triggered, every registered handler is raced
against the shared timeout and settles within it even if it fails or
never resolves (so no handler blocks the others), and the unconditional
`process.exit` after `allSettled` runs no later than `timeout` after the
trigger — in particular within `timeout + ε` even when some handler
never resolves. -/
theorem shutdown_exits_within_timeout (handlers : List HandlerBehavior) (timeout : Nat) :
    (∀ b ∈ handlers, executeHandlerSettleTime b timeout ≤ timeout) ∧
    shutdownExitTime handlers timeout ≤ timeout := by
  constructor
  · intro b _
    exact executeHandlerSettleTime_le b timeout
  · unfold shutdownExitTime
    induction handlers with
    | nil => simp
    | cons b bs ih =>
      simp only [List.map_cons, List.foldr_cons]
      exact max_le (executeHandlerSettleTime_le b timeout) ih

/-- Witness for C7: one never-settling handler next to a fast one, with
the 10000 ms default timeout. -/
theorem shutdown_exits_within_timeout_witness :
    (∀ b ∈ [HandlerBehavior.neverSettles, HandlerBehavior.resolvesAt 3],
      executeHandlerSettleTime b 10000 ≤ 10000) ∧
    shutdownExitTime [HandlerBehavior.neverSettles, HandlerBehavior.resolvesAt 3] 10000 ≤
      10000 :=
  shutdown_exits_within_timeout [HandlerBehavior.neverSettles, HandlerBehavior.resolvesAt 3]
    10000

/-! ## Metrics batcher (`src/utils/batch.mjs`)

The batcher's mutable closure state is `batch`, the pending flush timer
(`scheduledFlushTimeout`, tracked here as a Boolean) and the shutdown
flag.  `flush` has exactly one `await` (the `writeBatch` call); it is
modelled as the phase before the await (`flushDetach`) and the phase
after it (`flushResume`), which receives the state current when the
write settles — points added during the in-flight write land there. -/

/-- The batcher's closure state. -/
structure BatcherState (P : Type) where
  batch : List P
  flushScheduled : Bool
  isShutdown : Bool
deriving DecidableEq, Repr

/-- `scheduleFlush()` (`batch.mjs` lines 135-146): a no-op when a flush
timer is already pending or the batcher is shut down, otherwise arms the
timer (its delay does not matter for these claims). -/
def scheduleFlush {P : Type} (st : BatcherState P) : BatcherState P :=
  if st.flushScheduled || st.isShutdown then st else { st with flushScheduled := true }

/-- `flush()` up to the `await writeBatch(pointsToWrite)` (`batch.mjs`
lines 101-113): clears any pending timer, returns early on an empty
batch, otherwise detaches the batch (`pointsToWrite = [...batch];
batch = []`).  Returns the new state and the detached points. -/
def flushDetach {P : Type} (st : BatcherState P) : BatcherState P × List P :=
  let st1 : BatcherState P := { st with flushScheduled := false }
  if st1.batch.isEmpty then (st1, [])
  else ({ st1 with batch := [] }, st1.batch)

/-- `flush()` after the `await` (`batch.mjs` lines 115-128): on a failed
write (`writeBatch` returned false, or threw) with the batcher not shut
down, the detached points are pushed back onto the pending batch and a
flush is rescheduled; otherwise nothing happens.  `st` is the closure
state at the moment the write settles. -/
def flushResume {P : Type} (st : BatcherState P) (detached : List P)
    (writeOk : Bool) : BatcherState P :=
  if writeOk then st
  else if st.isShutdown then st
  else scheduleFlush { st with batch := st.batch ++ detached }

/-- **C6.** `flush` detaches atomically — after the pre-await phase the
pending batch is empty and the detached points are exactly the previous
batch — and when the write ultimately fails while the batcher is not
shutting down, exactly the detached points are appended back onto the
pending batch (after any points added during the in-flight write) and a
flush is scheduled, so no detached point is dropped. -/
theorem flush_detach_and_requeue {P : Type} (st stMid : BatcherState P)
    (detached : List P) (hs : stMid.isShutdown = false) :
    (flushDetach st).1.batch = [] ∧
    (flushDetach st).2 = st.batch ∧
    (flushResume stMid detached false).batch = stMid.batch ++ detached ∧
    (flushResume stMid detached false).flushScheduled = true ∧
    ∀ p ∈ detached, p ∈ (flushResume stMid detached false).batch := by
  refine ⟨?_, ?_, ?_, ?_, ?_⟩
  · cases hsb : st.batch with
    | nil => simp [flushDetach, hsb]
    | cons a l => simp [flushDetach, hsb]
  · cases hsb : st.batch with
    | nil => simp [flushDetach, hsb]
    | cons a l => simp [flushDetach, hsb]
  · by_cases hf : stMid.flushScheduled = true <;>
      simp [flushResume, scheduleFlush, hs, hf]
  · by_cases hf : stMid.flushScheduled = true <;>
      simp [flushResume, scheduleFlush, hs, hf]
  · intro p hp
    by_cases hf : stMid.flushScheduled = true <;>
      simp [flushResume, scheduleFlush, hs, hf] <;>
      exact Or.inr hp

/-- Witness for C6 with two pending points, a mid-write added point and
a failed write. -/
theorem flush_detach_and_requeue_witness :
    (flushDetach (⟨[1, 2], true, false⟩ : BatcherState Nat)).1.batch = [] ∧
    (flushDetach (⟨[1, 2], true, false⟩ : BatcherState Nat)).2 = [1, 2] ∧
    (flushResume (⟨[3], false, false⟩ : BatcherState Nat) [1, 2] false).batch =
      [3] ++ [1, 2] ∧
    (flushResume (⟨[3], false, false⟩ : BatcherState Nat) [1, 2] false).flushScheduled =
      true ∧
    ∀ p ∈ [1, 2],
      p ∈ (flushResume (⟨[3], false, false⟩ : BatcherState Nat) [1, 2] false).batch :=
  flush_detach_and_requeue ⟨[1, 2], true, false⟩ ⟨[3], false, false⟩ [1, 2] rfl

/-- The argument of `add`: a single point or an array of points
(`Array.isArray(points) ? points : [points]`). -/
inductive AddInput (P : Type) where
  | single (p : P)
  | many (ps : List P)
deriving DecidableEq, Repr

/-- `Array.isArray(points) ? points : [points]`. -/
def toPointsArray {P : Type} : AddInput P → List P
  | .single p => [p]
  | .many ps => ps

/-- What `add` did besides updating the state: nothing further, or a
size-triggered immediate `flush()` (fire-and-forget). -/
inductive AddEffect where
  | noEffect
  | triggeredImmediateFlush
deriving DecidableEq, Repr

/-- `add(points)` (`batch.mjs` lines 153-175), wrapped in `Except` to
record that no path throws (its JSDoc advertises `@throws` after
shutdown, but the code logs a warning and returns): after shutdown or on
an empty array it returns leaving the state untouched; otherwise it
appends, and either triggers an immediate flush at `maxSize` or arms the
flush timer. -/
def add {P : Type} (maxSize : Nat) (st : BatcherState P) (input : AddInput P) :
    Except String (BatcherState P × AddEffect) :=
  if st.isShutdown then Except.ok (st, .noEffect)
  else
    let pointsArray := toPointsArray input
    if pointsArray.isEmpty then Except.ok (st, .noEffect)
    else
      let st1 : BatcherState P := { st with batch := st.batch ++ pointsArray }
      if maxSize ≤ st1.batch.length then Except.ok (st1, .triggeredImmediateFlush)
      else Except.ok (scheduleFlush st1, .noEffect)

/-- **C10.** After `shutdown()` has set the shutdown flag, every call to
`add` — single point or list, any `maxSize` — returns normally (no
exception), leaves the whole batcher state (pending batch included)
unchanged, and neither triggers nor schedules a flush: a silent no-op. -/
theorem add_after_shutdown_noop {P : Type} (maxSize : Nat) (st : BatcherState P)
    (input : AddInput P) (hs : st.isShutdown = true) :
    add maxSize st input = Except.ok (st, AddEffect.noEffect) := by
  simp [add, hs]

/-- Witness for C10: adding both a single point and a two-point list to
a shut-down batcher with a non-empty pending batch. -/
theorem add_after_shutdown_noop_witness :
    add 2 (⟨[7], false, true⟩ : BatcherState Nat) (.single 9) =
      Except.ok (⟨[7], false, true⟩, AddEffect.noEffect) ∧
    add 2 (⟨[7], false, true⟩ : BatcherState Nat) (.many [8, 9]) =
      Except.ok (⟨[7], false, true⟩, AddEffect.noEffect) :=
  ⟨add_after_shutdown_noop 2 ⟨[7], false, true⟩ (.single 9) rfl,
   add_after_shutdown_noop 2 ⟨[7], false, true⟩ (.many [8, 9]) rfl⟩

/-! ## The stream manager's data-arrival handler
(`src/services/docker/stream-manager.mjs` lines 93-124)

The handler is synchronous; `parseLine` is abstracted to the Boolean
`parseOk` (whether the line yields a valid snapshot — `parseLine(line)`
non-null).  Crucially, for a valid line the handler only *dispatches*
`onStats(...)` and attaches `.then(() => consecutiveErrors = 0)` /
`.catch(() => consecutiveErrors++)`: by JavaScript microtask semantics
these callbacks cannot run before the synchronous `for` loop finishes,
so within one data event a valid line leaves the counter unchanged and
the reset to 0 happens only after the event. -/

/-- `MAX_CONSECUTIVE_ERRORS` (`stream-manager.mjs` line 21). -/
def MAX_CONSECUTIVE_ERRORS : Nat := 3

/-- Synchronous outcome of one data event's line loop: the counter after
the loop, the lines that were actually handled (in order), whether
`removeStream` was invoked, and how many `onStats` dispatches are left
pending (their `.then`/`.catch` counter updates run after the event). -/
structure DataEventOutcome where
  counter : Nat
  processed : List (List Char)
  tornDown : Bool
  dispatched : Nat
deriving DecidableEq, Repr

/-- The `for (const line of lines)` loop of the data handler: a valid
line dispatches `onStats` (deferred callbacks, no synchronous counter
change), an invalid line increments `consecutiveErrors`; after either
case, once the counter has reached `MAX_CONSECUTIVE_ERRORS` the stream
is removed and the loop returns without touching the remaining lines. -/
def dataLoop (parseOk : List Char → Bool) :
    List (List Char) → Nat → DataEventOutcome
  | [], c => ⟨c, [], false, 0⟩
  | line :: rest, c =>
    let c1 := if parseOk line then c else c + 1
    let d1 := if parseOk line then 1 else 0
    if MAX_CONSECUTIVE_ERRORS ≤ c1 then ⟨c1, [line], true, d1⟩
    else
      let r := dataLoop parseOk rest c1
      ⟨r.counter, line :: r.processed, r.tornDown, d1 + r.dispatched⟩

/-- The whole `stream.on('data', chunk => ...)` handler: nothing happens
unless the stream is `active`; otherwise the chunk goes through
`processBuffer`, the stored buffer becomes the remaining buffer, and the
extracted lines run through the loop.  Returns the stream record as the
loop leaves it (on teardown `removeStream` then destroys it) plus the
loop outcome. -/
def handleDataEvent (cfg : StatsBufferConfig) (parseOk : List Char → Bool)
    (info : StreamInfo) (chunk : List Char) : StreamInfo × DataEventOutcome :=
  if info.state ≠ .active then (info, ⟨info.consecutiveErrors, [], false, 0⟩)
  else
    let pr := processBuffer cfg info.buffer chunk
    let r := dataLoop parseOk pr.1 info.consecutiveErrors
    ({ info with buffer := pr.2, consecutiveErrors := r.counter }, r)

/-- The per-line counter dynamics exactly as the claim words them:
an invalid line increments the counter, a valid line resets it to 0
within the event.  Stated for comparison with `dataLoop`. -/
def specWordedCounterFold (counter : Nat) : List Bool → Nat
  | [] => counter
  | ok :: rest => specWordedCounterFold (if ok then 0 else counter + 1) rest

theorem dataLoop_cons_eq (parseOk : List Char → Bool) (line : List Char)
    (rest : List (List Char)) (c : Nat) :
    dataLoop parseOk (line :: rest) c =
      if MAX_CONSECUTIVE_ERRORS ≤ (if parseOk line then c else c + 1) then
        ⟨if parseOk line then c else c + 1, [line], true,
          if parseOk line then 1 else 0⟩
      else
        ⟨(dataLoop parseOk rest (if parseOk line then c else c + 1)).counter,
          line :: (dataLoop parseOk rest (if parseOk line then c else c + 1)).processed,
          (dataLoop parseOk rest (if parseOk line then c else c + 1)).tornDown,
          (if parseOk line then 1 else 0) +
            (dataLoop parseOk rest (if parseOk line then c else c + 1)).dispatched⟩ := by
  rfl

theorem dataLoop_characterization (parseOk : List Char → Bool)
    (lines : List (List Char)) (c : Nat) :
    ((dataLoop parseOk lines c).processed).IsPrefix lines ∧
    ((dataLoop parseOk lines c).tornDown = false →
      (dataLoop parseOk lines c).processed = lines) ∧
    (lines ≠ [] →
      ((dataLoop parseOk lines c).tornDown = true ↔
        MAX_CONSECUTIVE_ERRORS ≤ (dataLoop parseOk lines c).counter)) ∧
    (dataLoop parseOk lines c).counter =
      c + ((dataLoop parseOk lines c).processed.filter
        (fun l => !(parseOk l))).length ∧
    (dataLoop parseOk lines c).dispatched =
      ((dataLoop parseOk lines c).processed.filter (fun l => parseOk l)).length := by
  induction lines generalizing c with
  | nil => simp [dataLoop]
  | cons line rest ih =>
    rcases hval : parseOk line with _ | _ <;>
      rw [dataLoop_cons_eq] <;>
      simp only [hval, Bool.false_eq_true, if_false, if_true]
    · by_cases hth : MAX_CONSECUTIVE_ERRORS ≤ c + 1
      · rw [if_pos hth]
        dsimp only
        refine ⟨⟨rest, rfl⟩, by simp, fun _ => ⟨fun _ => hth, fun _ => rfl⟩, ?_, ?_⟩
        · simp [List.filter_cons, hval]
        · simp [List.filter_cons, hval]
      · rw [if_neg hth]
        dsimp only
        obtain ⟨ih1, ih2, ih3, ih4, ih5⟩ := ih (c + 1)
        obtain ⟨t, ht⟩ := ih1
        refine ⟨⟨t, by rw [List.cons_append, ht]⟩, ?_, ?_, ?_, ?_⟩
        · intro hnt
          rw [ih2 hnt]
        · intro _
          rcases rest with _ | ⟨l2, rest2⟩
          · simp [dataLoop]
            omega
          · exact ih3 (by simp)
        · simp only [List.filter_cons]
          simp [hval]
          rw [ih4]
          omega
        · simp only [List.filter_cons]
          simp [hval]
          exact ih5
    · by_cases hth : MAX_CONSECUTIVE_ERRORS ≤ c
      · rw [if_pos hth]
        dsimp only
        refine ⟨⟨rest, rfl⟩, by simp, fun _ => ⟨fun _ => hth, fun _ => rfl⟩, ?_, ?_⟩
        · simp [List.filter_cons, hval]
        · simp [List.filter_cons, hval]
      · rw [if_neg hth]
        dsimp only
        obtain ⟨ih1, ih2, ih3, ih4, ih5⟩ := ih c
        obtain ⟨t, ht⟩ := ih1
        refine ⟨⟨t, by rw [List.cons_append, ht]⟩, ?_, ?_, ?_, ?_⟩
        · intro hnt
          rw [ih2 hnt]
        · intro _
          rcases rest with _ | ⟨l2, rest2⟩
          · simp [dataLoop]
            omega
          · exact ih3 (by simp)
        · simp only [List.filter_cons]
          simp [hval]
          exact ih4
        · simp only [List.filter_cons]
          simp [hval]
          rw [ih5]
          omega

/-- **C5 (counterexample).** A data event starting with the counter at 2
whose extracted lines are a valid line then an invalid one: under the
claim's within-event dynamics (`specWordedCounterFold`, valid resets to
0) the counter ends at 1 and never reaches 3, so no teardown — but the
code leaves the counter at 2 after the valid line (the reset runs only
in the later promise callback) and tears the stream down at the invalid
line. -/
theorem stream_error_counter_counterexample :
    (dataLoop (fun l => l == ['v']) [['v']] 2).counter = 2 ∧
    (dataLoop (fun l => l == ['v']) [['v']] 2).counter ≠ 0 ∧
    (dataLoop (fun l => l == ['v']) [['v'], ['x']] 2).tornDown = true ∧
    specWordedCounterFold 2 [true, false] = 1 ∧
    specWordedCounterFold 2 [true, false] < MAX_CONSECUTIVE_ERRORS := by
  decide

/-- **C5 (amended).** Within a single data-arrival event on an active
stream, the handler stores the remaining buffer, then processes the
extracted lines in order via the loop: each invalid line increments the
consecutive-error counter by one; a line yielding a valid snapshot only
dispatches `onStats` — its reset of the counter to 0 runs in a promise
callback after the event, so synchronously the counter is exactly its
starting value plus the number of invalid lines processed; and as soon
as the counter reaches 3 (`MAX_CONSECUTIVE_ERRORS`) the stream is torn
down via `removeStream` and none of the remaining extracted lines are
processed (the processed lines form a prefix, complete exactly when no
teardown happened, with teardown exactly when the counter reached 3). -/
theorem stream_error_counter_amended (cfg : StatsBufferConfig)
    (parseOk : List Char → Bool) (info : StreamInfo) (chunk : List Char)
    (ha : info.state = .active) :
    (handleDataEvent cfg parseOk info chunk).2 =
      dataLoop parseOk (processBuffer cfg info.buffer chunk).1
        info.consecutiveErrors ∧
    (handleDataEvent cfg parseOk info chunk).1.buffer =
      (processBuffer cfg info.buffer chunk).2 ∧
    (handleDataEvent cfg parseOk info chunk).2.counter =
      info.consecutiveErrors +
        (((handleDataEvent cfg parseOk info chunk).2.processed).filter
          (fun l => !(parseOk l))).length ∧
    (handleDataEvent cfg parseOk info chunk).2.dispatched =
      (((handleDataEvent cfg parseOk info chunk).2.processed).filter
        (fun l => parseOk l)).length ∧
    ((handleDataEvent cfg parseOk info chunk).2.processed).IsPrefix
      (processBuffer cfg info.buffer chunk).1 ∧
    ((handleDataEvent cfg parseOk info chunk).2.tornDown = false →
      (handleDataEvent cfg parseOk info chunk).2.processed =
        (processBuffer cfg info.buffer chunk).1) ∧
    ((processBuffer cfg info.buffer chunk).1 ≠ [] →
      ((handleDataEvent cfg parseOk info chunk).2.tornDown = true ↔
        MAX_CONSECUTIVE_ERRORS ≤ (handleDataEvent cfg parseOk info chunk).2.counter)) := by
  have heq : handleDataEvent cfg parseOk info chunk =
      ({ info with
          buffer := (processBuffer cfg info.buffer chunk).2,
          consecutiveErrors :=
            (dataLoop parseOk (processBuffer cfg info.buffer chunk).1
              info.consecutiveErrors).counter },
        dataLoop parseOk (processBuffer cfg info.buffer chunk).1
          info.consecutiveErrors) := by
    simp [handleDataEvent, ha]
  obtain ⟨h1, h2, h3, h4, h5⟩ := dataLoop_characterization parseOk
    (processBuffer cfg info.buffer chunk).1 info.consecutiveErrors
  rw [heq]
  exact ⟨rfl, rfl, h4, h5, h1, h2, h3⟩

/-- Witness for the amended C5: active stream with counter 2, chunk
`"v\nx\n"` giving lines `v` (valid) then `x` (invalid). -/
theorem stream_error_counter_amended_witness :
    (handleDataEvent ⟨100, 100⟩ (fun l => l == ['v'])
        ⟨[], 2, .active⟩ "v\nx\n".data).2 =
      dataLoop (fun l => l == ['v'])
        (processBuffer ⟨100, 100⟩ [] "v\nx\n".data).1 2 ∧
    (handleDataEvent ⟨100, 100⟩ (fun l => l == ['v'])
        ⟨[], 2, .active⟩ "v\nx\n".data).1.buffer =
      (processBuffer ⟨100, 100⟩ [] "v\nx\n".data).2 ∧
    (handleDataEvent ⟨100, 100⟩ (fun l => l == ['v'])
        ⟨[], 2, .active⟩ "v\nx\n".data).2.counter =
      2 + (((handleDataEvent ⟨100, 100⟩ (fun l => l == ['v'])
        ⟨[], 2, .active⟩ "v\nx\n".data).2.processed).filter
          (fun l => !(l == ['v']))).length ∧
    (handleDataEvent ⟨100, 100⟩ (fun l => l == ['v'])
        ⟨[], 2, .active⟩ "v\nx\n".data).2.dispatched =
      (((handleDataEvent ⟨100, 100⟩ (fun l => l == ['v'])
        ⟨[], 2, .active⟩ "v\nx\n".data).2.processed).filter
          (fun l => l == ['v'])).length ∧
    ((handleDataEvent ⟨100, 100⟩ (fun l => l == ['v'])
        ⟨[], 2, .active⟩ "v\nx\n".data).2.processed).IsPrefix
      (processBuffer ⟨100, 100⟩ [] "v\nx\n".data).1 ∧
    ((handleDataEvent ⟨100, 100⟩ (fun l => l == ['v'])
        ⟨[], 2, .active⟩ "v\nx\n".data).2.tornDown = false →
      (handleDataEvent ⟨100, 100⟩ (fun l => l == ['v'])
        ⟨[], 2, .active⟩ "v\nx\n".data).2.processed =
        (processBuffer ⟨100, 100⟩ [] "v\nx\n".data).1) ∧
    ((processBuffer ⟨100, 100⟩ [] "v\nx\n".data).1 ≠ [] →
      ((handleDataEvent ⟨100, 100⟩ (fun l => l == ['v'])
        ⟨[], 2, .active⟩ "v\nx\n".data).2.tornDown = true ↔
        MAX_CONSECUTIVE_ERRORS ≤ (handleDataEvent ⟨100, 100⟩ (fun l => l == ['v'])
          ⟨[], 2, .active⟩ "v\nx\n".data).2.counter)) :=
  stream_error_counter_amended ⟨100, 100⟩ (fun l => l == ['v'])
    ⟨[], 2, .active⟩ "v\nx\n".data rfl

/-! ## JSON values, stats validation and CPU percent
(`src/services/docker/validation.mjs`)

Raw telemetry samples are the values `JSON.parse` can produce; JavaScript
numbers are modelled as rationals (JSON literals are finite decimals).
`Date.parse` / `new Date(x).getTime()` is the host primitive `dtime`
(epoch milliseconds, `none` for an unparseable value), passed as a
parameter.  Property access on `undefined`/`null` throws (`Except`);
JavaScript's implicit string→number coercion inside arithmetic on
truthy non-number fields is not modelled (such operands are collapsed to
the `none`/NaN case). -/

/-- A JSON value as produced by `JSON.parse`. -/
inductive JVal where
  | num (q : ℚ)
  | str (s : String)
  | bool (b : Bool)
  | null
  | arr (xs : List JVal)
  | obj (fields : List (String × JVal))
deriving Repr

/-- First-match lookup in an object's fields (`JSON.parse` output has
unique keys). -/
def lookupField : List (String × JVal) → String → Option JVal
  | [], _ => none
  | (k, v) :: rest, key => if k = key then some v else lookupField rest key

/-- Property read `x[key]`: `undefined` (`none`) unless `x` is an object
holding the key (our string keys never hit array indices or string
methods). -/
def JVal.get : JVal → String → Option JVal
  | .obj fs, key => lookupField fs key
  | _, _ => none

/-- Optional-chaining read `base?.key`: `undefined` on an
`undefined`/`null` base instead of throwing. -/
def getOpt (v : Option JVal) (key : String) : Option JVal :=
  match v with
  | some .null => none
  | some x => x.get key
  | none => none

/-- Plain property read `base.key`, which throws a `TypeError` when the
base is `undefined` or `null`. -/
def jsGet (v : Option JVal) (key : String) : Except Unit (Option JVal) :=
  match v with
  | none => Except.error ()
  | some .null => Except.error ()
  | some x => Except.ok (x.get key)

/-- JavaScript truthiness of a value. -/
def JVal.truthy : JVal → Bool
  | .num q => q != 0
  | .str s => s != ""
  | .bool b => b
  | .null => false
  | .arr _ => true
  | .obj _ => true

/-- Truthiness of a possibly-undefined value. -/
def truthyOpt : Option JVal → Bool
  | none => false
  | some v => v.truthy

/-- `typeof x === 'number'`. -/
def isNumberOpt : Option JVal → Bool
  | some (.num _) => true
  | _ => false

/-- The numeric value when the field is a number. -/
def asNumOpt : Option JVal → Option ℚ
  | some (.num q) => some q
  | _ => none

/-- `typeof x === 'object'` (true for objects, arrays and `null`). -/
def JVal.isObjectTypeof : JVal → Bool
  | .obj _ => true
  | .arr _ => true
  | .null => true
  | _ => false

/-- `validateTimestamp` (`validation.mjs` lines 71-76):
`!timestamp || !Date.parse(timestamp)` fails — `Date.parse` yielding
`NaN` or the falsy epoch 0 both reject. -/
def validateTimestampOk (dtime : JVal → Option ℚ) (read : Option JVal) : Bool :=
  truthyOpt read &&
    (match read.bind dtime with
     | some t => t != 0
     | none => false)

/-- `validateCpuStats` (`validation.mjs` lines 18-29). -/
def validateCpuStatsOk (cpu : Option JVal) : Bool :=
  truthyOpt (getOpt (getOpt cpu "cpu_usage") "total_usage") &&
  truthyOpt (getOpt cpu "system_cpu_usage")

/-- `validateMemoryStats` (`validation.mjs` lines 36-52). -/
def validateMemoryStatsOk (mem : Option JVal) : Bool :=
  truthyOpt mem &&
  isNumberOpt (getOpt mem "usage") &&
  isNumberOpt (getOpt mem "limit")

/-- `validateNetworkStats` (`validation.mjs` lines 59-64): present and
not object-typed fails. -/
def validateNetworkStatsOk (nets : Option JVal) : Bool :=
  !(truthyOpt nets &&
    !(match nets with
      | some v => v.isObjectTypeof
      | none => false))

/-- `validateStats` (`validation.mjs` lines 83-111): non-object or
`null` input fails; otherwise the timestamp, CPU, memory, network and
`precpu_stats.cpu_usage.total_usage`-is-a-number checks must all pass
(a previous total of 0 is accepted — only the number type is checked). -/
def validateStats (dtime : JVal → Option ℚ) (stats : JVal) : Bool :=
  match stats with
  | .obj _ =>
    validateTimestampOk dtime (stats.get "read") &&
    validateCpuStatsOk (stats.get "cpu_stats") &&
    validateMemoryStatsOk (stats.get "memory_stats") &&
    validateNetworkStatsOk (stats.get "networks") &&
    (truthyOpt (getOpt (stats.get "precpu_stats") "cpu_usage") &&
      isNumberOpt (getOpt (getOpt (stats.get "precpu_stats") "cpu_usage") "total_usage"))
  | .arr _ =>
    validateTimestampOk dtime (stats.get "read") &&
    validateCpuStatsOk (stats.get "cpu_stats") &&
    validateMemoryStatsOk (stats.get "memory_stats") &&
    validateNetworkStatsOk (stats.get "networks") &&
    (truthyOpt (getOpt (stats.get "precpu_stats") "cpu_usage") &&
      isNumberOpt (getOpt (getOpt (stats.get "precpu_stats") "cpu_usage") "total_usage"))
  | _ => false

/-- `x || 0` on a property value, as a number (`none` stands for the
unmodelled truthy-non-number coercion case). -/
def jsOrZeroNum : Option JVal → Option ℚ
  | none => some 0
  | some (.num q) => some q
  | some .null => some 0
  | some (.bool false) => some 0
  | some (.str "") => some 0
  | some _ => none

/-- `x || 1` on a property value (`cpu_stats.online_cpus || 1`). -/
def jsOrOneNum : Option JVal → Option ℚ
  | none => some 1
  | some (.num q) => some (if q = 0 then 1 else q)
  | some .null => some 1
  | some (.bool false) => some 1
  | some (.str "") => some 1
  | some _ => none

/-- Subtraction where either operand being NaN poisons the result. -/
def optSub : Option ℚ → Option ℚ → Option ℚ
  | some a, some b => some (a - b)
  | _, _ => none

/-- `x > 0`, false for NaN. -/
def qGtZeroOpt : Option ℚ → Bool
  | some q => decide (0 < q)
  | none => false

/-- `calculateCpuPercent(stats)` (`validation.mjs` lines 118-130):
deltas of current minus (previous-or-0) totals; percent is 0 unless
system delta > 0, cpu delta > 0 and raw previous `total_usage` > 0, and
otherwise `(cpuDelta / sysDelta) * (online_cpus || 1) * 100`.  The outer
`Except` is a thrown `TypeError` (missing `cpu_usage` object); the inner
`Option` is a NaN result. -/
def calculateCpuPercent (stats : JVal) : Except Unit (Option ℚ) := do
  let cs := stats.get "cpu_stats"
  let pcs := stats.get "precpu_stats"
  let cu ← jsGet cs "cpu_usage"
  let tu ← jsGet cu "total_usage"
  let pcu ← jsGet pcs "cpu_usage"
  let ptu ← jsGet pcu "total_usage"
  let sys ← jsGet cs "system_cpu_usage"
  let psys ← jsGet pcs "system_cpu_usage"
  let cpuDelta := optSub (asNumOpt tu) (jsOrZeroNum ptu)
  let sysDelta := optSub (asNumOpt sys) (jsOrZeroNum psys)
  if qGtZeroOpt sysDelta && qGtZeroOpt cpuDelta && qGtZeroOpt (asNumOpt ptu) then
    let online ← jsGet cs "online_cpus"
    return (do
      let cd ← cpuDelta
      let sd ← sysDelta
      let oc ← jsOrOneNum online
      pure (cd / sd * oc * 100))
  else
    return (some 0)

/-- `cpu_stats` block of a canonical numeric raw sample. -/
def mkCpuStats (tu sys : ℚ) (online : Option ℚ) : JVal :=
  .obj ([("cpu_usage", .obj [("total_usage", .num tu)]),
    ("system_cpu_usage", .num sys)] ++
    (match online with
     | some q => [("online_cpus", JVal.num q)]
     | none => []))

/-- `precpu_stats` block of a canonical numeric raw sample. -/
def mkPreCpuStats (ptu : ℚ) (psys : Option ℚ) : JVal :=
  .obj ([("cpu_usage", .obj [("total_usage", .num ptu)])] ++
    (match psys with
     | some q => [("system_cpu_usage", JVal.num q)]
     | none => []))

/-- A canonical numeric raw telemetry sample: the shape Docker emits,
with every numeric knob a parameter and optional `online_cpus`,
previous `system_cpu_usage` and `networks` (a list of interfaces with
`rx_bytes`/`tx_bytes`). -/
def mkSample (read : String) (tu sys : ℚ) (online : Option ℚ) (ptu : ℚ)
    (psys : Option ℚ) (memUsage memLimit : ℚ)
    (networks : Option (List (String × ℚ × ℚ))) : JVal :=
  .obj ([("read", .str read),
    ("cpu_stats", mkCpuStats tu sys online),
    ("precpu_stats", mkPreCpuStats ptu psys),
    ("memory_stats", .obj [("usage", .num memUsage), ("limit", .num memLimit)])] ++
    (match networks with
     | some ifs =>
       [("networks", JVal.obj (ifs.map (fun p =>
         (p.1, JVal.obj [("rx_bytes", JVal.num p.2.1), ("tx_bytes", JVal.num p.2.2)]))))]
     | none => []))

/-- `online_cpus || 1` on the canonical sample's parameter. -/
def onlineOrOne (online : Option ℚ) : ℚ :=
  match online with
  | some q => if q = 0 then 1 else q
  | none => 1

/-! ## Field extraction and selection
(`src/services/docker/validation.mjs` lines 166-514,
`src/config/config.mjs` lines 36-112)

Extractor outputs are association lists of field name to assigned value,
where `none` is an assigned `undefined`; `extractAllFields`' cleanup then
keeps only finite numbers, exactly as the source deletes
`undefined`/`null`/non-finite entries. -/

/-- `x || d` keeping the raw value when truthy. -/
def jsOrV (v : Option JVal) (d : JVal) : JVal :=
  match v with
  | some x => if x.truthy then x else d
  | none => d

/-- `Object.keys` / `Object.entries` enumeration: object fields, array
indices (stringified), nothing for primitives. -/
def entriesOf : JVal → List (String × JVal)
  | .obj fs => fs
  | .arr xs => xs.enum.map (fun p => (toString p.1, p.2))
  | _ => []

/-- `extractCpuFields(stats)` (`validation.mjs` lines 166-191):
`cpu_percent` plus the raw CPU counters, optional throttling fields and
one `cpu_<i>_usage` per `percpu_usage` entry (`forEach` on a truthy
non-array throws). -/
def extractCpuFields (stats : JVal) : Except Unit (List (String × Option JVal)) := do
  let cs := stats.get "cpu_stats"
  let cpuPercent ← calculateCpuPercent stats
  let cu ← jsGet cs "cpu_usage"
  let tu ← jsGet cu "total_usage"
  let sys ← jsGet cs "system_cpu_usage"
  let online ← jsGet cs "online_cpus"
  let kern ← jsGet cu "usage_in_kernelmode"
  let user ← jsGet cu "usage_in_usermode"
  let throttling ← jsGet cs "throttling_data"
  let throttlingFields : List (String × Option JVal) :=
    if truthyOpt throttling then
      [("cpu_throttling_periods", getOpt throttling "periods"),
       ("cpu_throttled_periods", getOpt throttling "throttled_periods"),
       ("cpu_throttled_time", getOpt throttling "throttled_time")]
    else []
  let percpu ← jsGet cu "percpu_usage"
  let percpuFields ←
    if truthyOpt percpu then
      match percpu with
      | some (.arr xs) =>
        Except.ok (xs.enum.map (fun p =>
          ("cpu_" ++ toString p.1 ++ "_usage", some p.2)))
      | _ => Except.error ()
    else Except.ok []
  return [("cpu_percent", cpuPercent.map JVal.num),
    ("cpu_total_usage", tu),
    ("cpu_system_usage", sys),
    ("cpu_online", some (jsOrV online (.num 1))),
    ("cpu_usage_in_kernelmode", kern),
    ("cpu_usage_in_usermode", user)] ++ throttlingFields ++ percpuFields

/-- The `memFields` table of `extractMemoryFields`
(`validation.mjs` lines 214-261): output name → `memory_stats.stats`
key. -/
def memDetailTable : List (String × String) :=
  [("mem_rss", "rss"), ("mem_rss_huge", "rss_huge"),
   ("mem_total_rss", "total_rss"), ("mem_total_rss_huge", "total_rss_huge"),
   ("mem_cache", "cache"), ("mem_total_cache", "total_cache"),
   ("mem_active_anon", "active_anon"), ("mem_inactive_anon", "inactive_anon"),
   ("mem_active_file", "active_file"), ("mem_inactive_file", "inactive_file"),
   ("mem_total_active_anon", "total_active_anon"),
   ("mem_total_inactive_anon", "total_inactive_anon"),
   ("mem_total_active_file", "total_active_file"),
   ("mem_total_inactive_file", "total_inactive_file"),
   ("mem_pgfault", "pgfault"), ("mem_pgmajfault", "pgmajfault"),
   ("mem_total_pgfault", "total_pgfault"),
   ("mem_total_pgmajfault", "total_pgmajfault"),
   ("mem_pgpgin", "pgpgin"), ("mem_pgpgout", "pgpgout"),
   ("mem_total_pgpgin", "total_pgpgin"), ("mem_total_pgpgout", "total_pgpgout"),
   ("mem_mapped_file", "mapped_file"),
   ("mem_total_mapped_file", "total_mapped_file"),
   ("mem_unevictable", "unevictable"),
   ("mem_total_unevictable", "total_unevictable"),
   ("mem_writeback", "writeback"), ("mem_total_writeback", "total_writeback"),
   ("mem_hierarchical_limit", "hierarchical_memory_limit")]

/-- `extractMemoryFields(stats)` (`validation.mjs` lines 198-283):
`mem_used`/`mem_total` with `|| 0` defaults, optional `mem_max`/
`mem_failcnt`, and — when `memory_stats.stats` is truthy — the detailed
table plus Windows commit/working-set fields, adding only defined
values. -/
def extractMemoryFields (stats : JVal) : Except Unit (List (String × Option JVal)) := do
  let mem := stats.get "memory_stats"
  let usage ← jsGet mem "usage"
  let limit ← jsGet mem "limit"
  let maxUsage ← jsGet mem "max_usage"
  let failcnt ← jsGet mem "failcnt"
  let base : List (String × Option JVal) :=
    [("mem_used", some (jsOrV usage (.num 0))),
     ("mem_total", some (jsOrV limit (.num 0)))] ++
    (if isNumberOpt maxUsage then [("mem_max", maxUsage)] else []) ++
    (if isNumberOpt failcnt then [("mem_failcnt", failcnt)] else [])
  let detail ← jsGet mem "stats"
  if truthyOpt detail then
    let memFieldVals := memDetailTable.map (fun p => (p.1, getOpt detail p.2))
    let commit ← jsGet mem "commitbytes"
    let commitPeak ← jsGet mem "commitpeakbytes"
    let privws ← jsGet mem "privateworkingset"
    let winFields : List (String × Option JVal) :=
      (if isNumberOpt commit then [("mem_commit_bytes", commit)] else []) ++
      (if isNumberOpt commitPeak then [("mem_commit_peak_bytes", commitPeak)] else []) ++
      (if isNumberOpt privws then [("mem_private_working_set", privws)] else [])
    return base ++ (memFieldVals ++ winFields).filter (fun p => p.2.isSome)
  else
    return base

/-- NaN-poisoning addition for the network byte sums. -/
def optAdd : Option ℚ → Option ℚ → Option ℚ
  | some a, some b => some (a + b)
  | _, _ => none

/-- `calculateNetworkUsage(stats)` (`validation.mjs` lines 137-149):
sums of `rx_bytes || 0` / `tx_bytes || 0` over all interfaces, 0 when
`networks` is absent or falsy. -/
def calculateNetworkUsage (stats : JVal) : Except Unit (Option ℚ × Option ℚ) := do
  let nets := stats.get "networks"
  if truthyOpt nets then
    match nets with
    | some netsV =>
      (entriesOf netsV).foldlM (fun acc p => do
        let rx ← jsGet (some p.2) "rx_bytes"
        let tx ← jsGet (some p.2) "tx_bytes"
        return (optAdd acc.1 (jsOrZeroNum rx), optAdd acc.2 (jsOrZeroNum tx)))
        ((some 0 : Option ℚ), (some 0 : Option ℚ))
    | none => return ((some 0 : Option ℚ), (some 0 : Option ℚ))
  else
    return ((some 0 : Option ℚ), (some 0 : Option ℚ))

/-- `extractNetworkFields(stats)` (`validation.mjs` lines 290-319):
the two sums plus eight per-interface fields (`|| 0` defaults on
bytes/packets, errors/dropped added only when defined). -/
def extractNetworkFields (stats : JVal) : Except Unit (List (String × Option JVal)) := do
  let usage ← calculateNetworkUsage stats
  let base : List (String × Option JVal) :=
    [("net_in_bytes", usage.1.map JVal.num),
     ("net_out_bytes", usage.2.map JVal.num)]
  let nets := stats.get "networks"
  if truthyOpt nets then
    match nets with
    | some netsV =>
      let perIf ← (entriesOf netsV).foldlM (fun acc p => do
        let rx ← jsGet (some p.2) "rx_bytes"
        let tx ← jsGet (some p.2) "tx_bytes"
        let rxp ← jsGet (some p.2) "rx_packets"
        let txp ← jsGet (some p.2) "tx_packets"
        let rxe ← jsGet (some p.2) "rx_errors"
        let txe ← jsGet (some p.2) "tx_errors"
        let rxd ← jsGet (some p.2) "rx_dropped"
        let txd ← jsGet (some p.2) "tx_dropped"
        let entries : List (String × Option JVal) :=
          [("net_" ++ p.1 ++ "_in_bytes", some (jsOrV rx (.num 0))),
           ("net_" ++ p.1 ++ "_out_bytes", some (jsOrV tx (.num 0))),
           ("net_" ++ p.1 ++ "_in_packets", some (jsOrV rxp (.num 0))),
           ("net_" ++ p.1 ++ "_out_packets", some (jsOrV txp (.num 0))),
           ("net_" ++ p.1 ++ "_in_errors", rxe),
           ("net_" ++ p.1 ++ "_out_errors", txe),
           ("net_" ++ p.1 ++ "_in_dropped", rxd),
           ("net_" ++ p.1 ++ "_out_dropped", txd)]
        return acc ++ entries.filter (fun q => q.2.isSome))
        ([] : List (String × Option JVal))
      return base ++ perIf
    | none => return base
  else
    return base

/-- ASCII `toLowerCase` (blkio op names are plain ASCII). -/
def strLower (s : String) : String := ⟨s.data.map asciiLower⟩

/-- `ioStats[op] = (ioStats[op] || 0) + value`. -/
def addAccum (acc : List (String × ℚ)) (key : String) (q : ℚ) : List (String × ℚ) :=
  match acc.lookup key with
  | some v => acc.map (fun p => if p.1 = key then (p.1, v + q) else p)
  | none => acc ++ [(key, q)]

/-- `extractBlockIOFields(stats)` (`validation.mjs` lines 326-353):
sums `io_service_bytes_recursive` entries by lower-cased op and emits
the read/write/sync/async/total fields that ended up defined. -/
def extractBlockIOFields (stats : JVal) : Except Unit (List (String × Option JVal)) := do
  let io := getOpt (stats.get "blkio_stats") "io_service_bytes_recursive"
  if truthyOpt io then
    match io with
    | some (.arr xs) =>
      let ioStats ← xs.foldlM (fun (acc : List (String × ℚ)) stat => do
        let op ← jsGet (some stat) "op"
        let v ← jsGet (some stat) "value"
        if truthyOpt op && isNumberOpt v then
          match op, asNumOpt v with
          | some (.str s), some q => return addAccum acc (strLower s) q
          | _, _ => Except.error ()
        else
          return acc) []
      return [("blkio_read_bytes", ioStats.lookup "read"),
        ("blkio_write_bytes", ioStats.lookup "write"),
        ("blkio_sync_bytes", ioStats.lookup "sync"),
        ("blkio_async_bytes", ioStats.lookup "async"),
        ("blkio_total_bytes", ioStats.lookup "total")].filterMap
        (fun p => p.2.map (fun q => (p.1, some (JVal.num q))))
    | _ => Except.error ()
  else
    return []

/-- `x < bound` as JavaScript compares a field against
`Number.MAX_SAFE_INTEGER`: false unless the field is a number below the
bound. -/
def jsLtNum (v : Option JVal) (bound : ℚ) : Bool :=
  match v with
  | some (.num q) => decide (q < bound)
  | _ => false

/-- `extractPidStats(stats)` (`validation.mjs` lines 360-371). -/
def extractPidStats (stats : JVal) : List (String × Option JVal) :=
  let pids := stats.get "pids_stats"
  if truthyOpt pids then
    [("pids_current", getOpt pids "current")] ++
    (if jsLtNum (getOpt pids "limit") 9007199254740991 then
      [("pids_limit", getOpt pids "limit")]
    else [])
  else []

/-- `extractTimestampFields(stats)` (`validation.mjs` lines 378-396):
`read`/`preread` as epoch milliseconds when truthy and parseable. -/
def extractTimestampFields (dtime : JVal → Option ℚ) (stats : JVal) :
    List (String × Option JVal) :=
  (if truthyOpt (stats.get "read") then
    match (stats.get "read").bind dtime with
    | some t => [("read_time", some (JVal.num t))]
    | none => []
  else []) ++
  (if truthyOpt (stats.get "preread") then
    match (stats.get "preread").bind dtime with
    | some t => [("preread_time", some (JVal.num t))]
    | none => []
  else [])

/-- `extractProcessStats(stats)` (`validation.mjs` lines 403-411). -/
def extractProcessStats (stats : JVal) : List (String × Option JVal) :=
  if isNumberOpt (stats.get "num_procs") then
    [("num_procs", stats.get "num_procs")]
  else []

/-- `extractStorageStats(stats)` (`validation.mjs` lines 418-432). -/
def extractStorageStats (stats : JVal) : List (String × Option JVal) :=
  match stats.get "storage_stats" with
  | some ss =>
    if ss.truthy then
      (entriesOf ss).filterMap (fun p =>
        match p.2 with
        | .num q => some ("storage_" ++ p.1, some (JVal.num q))
        | _ => none)
    else []
  | none => []

/-- Object-spread merge `{...a, ...b}`: keys of `b` override `a`. -/
def mergeFields (a b : List (String × Option JVal)) : List (String × Option JVal) :=
  a.filter (fun p => !((b.map Prod.fst).contains p.1)) ++ b

/-- `extractAllFields(stats)` (`validation.mjs` lines 439-460): spread
of all extractors in source order, then delete every entry whose value
is `undefined`, `null` or not a finite number — leaving a numeric field
map. -/
def extractAllFields (dtime : JVal → Option ℚ) (stats : JVal) :
    Except Unit (List (String × ℚ)) := do
  let cpu ← extractCpuFields stats
  let mem ← extractMemoryFields stats
  let net ← extractNetworkFields stats
  let blk ← extractBlockIOFields stats
  let all :=
    mergeFields (mergeFields (mergeFields (mergeFields (mergeFields (mergeFields
      (mergeFields (extractTimestampFields dtime stats) (extractProcessStats stats))
      (extractStorageStats stats)) cpu) mem) net) blk) (extractPidStats stats)
  return all.filterMap (fun p =>
    match p.2 with
    | some (.num q) => some (p.1, q)
    | _ => none)

/-- Lookup in the cleaned numeric field map. -/
def lookupQField : List (String × ℚ) → String → Option ℚ
  | [], _ => none
  | (k, v) :: rest, key => if k = key then some v else lookupQField rest key

/-- `filterFields(fields, configFields)` (`validation.mjs` lines
468-498): all fields when none are configured, otherwise exactly the
configured names that are available, in configuration order (missing
names are only logged). -/
def filterFields (fields : List (String × ℚ)) (configFields : List String) :
    List (String × ℚ) :=
  if configFields.isEmpty then fields
  else
    configFields.filterMap (fun f =>
      match lookupQField fields f with
      | some v => some (f, v)
      | none => none)

/-- `getValidTimestamp(stats)` (`validation.mjs` lines 156-159):
`new Date(stats.read)`, falling back to the current time (`nowMs`) when
unparseable or negative. -/
def getValidTimestamp (dtime : JVal → Option ℚ) (nowMs : ℚ) (stats : JVal) : ℚ :=
  match (stats.get "read").bind dtime with
  | some t => if t < 0 then nowMs else t
  | none => nowMs

/-- `parseStats(stats)` (`validation.mjs` lines 505-514): the filtered
field map plus the timestamp. -/
def parseStats (dtime : JVal → Option ℚ) (nowMs : ℚ) (configFields : List String)
    (stats : JVal) : Except Unit (List (String × ℚ) × ℚ) := do
  let allFields ← extractAllFields dtime stats
  return (filterFields allFields configFields, getValidTimestamp dtime nowMs stats)

/-- `ESSENTIAL_FIELDS` (`config.mjs` line 37). -/
def ESSENTIAL_FIELDS : List String :=
  ["cpu_percent", "mem_used", "mem_total", "net_in_bytes", "net_out_bytes"]

/-- ASCII `toUpperCase`. -/
def asciiUpper (c : Char) : Char :=
  if 'a' ≤ c ∧ c ≤ 'z' then Char.ofNat (c.toNat - 32) else c

/-- `s.toUpperCase()`. -/
def strUpper (s : String) : String := ⟨s.data.map asciiUpper⟩

/-- `field.trim()` at the `String` level. -/
def strTrim (s : String) : String := ⟨trimChars s.data⟩

/-- JavaScript `Set` insertion order: keep the first occurrence of each
name. -/
def dedupFirstAux (seen : List String) : List String → List String
  | [] => []
  | x :: xs =>
    if seen.contains x then dedupFirstAux seen xs
    else x :: dedupFirstAux (x :: seen) xs

/-- `parseStatsFields()` (`config.mjs` lines 84-112): empty means all
fields, the `ESSENTIAL` keyword (case-insensitive) means the fixed
5-name subset, otherwise the comma-separated names trimmed, with empty
names dropped and duplicates ignored. -/
def parseStatsFields (statsFields : String) : List String :=
  if statsFields = "" then []
  else if strUpper statsFields = "ESSENTIAL" then ESSENTIAL_FIELDS
  else
    dedupFirstAux []
      (((statsFields.splitOn ",").map strTrim).filter (fun f => f ≠ ""))

/-- The field names of a `parseStats` result (`none` when parsing
threw). -/
def parsedFieldKeys (r : Except Unit (List (String × ℚ) × ℚ)) : Option (List String) :=
  match r with
  | Except.ok (fs, _) => some (fs.map Prod.fst)
  | Except.error _ => none

theorem jsOrV_num (q d : ℚ) :
    jsOrV (some (.num q)) (.num d) = .num (if q = 0 then d else q) := by
  by_cases h : q = 0 <;> simp [jsOrV, JVal.truthy, h]

theorem jsOrV_none (d : JVal) : jsOrV none d = d := rfl

theorem ite_exceptOk {α : Type} (c : Prop) [Decidable c] (a b : α) :
    (if c then (Except.ok a : Except Unit α) else Except.ok b) =
      Except.ok (if c then a else b) := by
  split_ifs <;> rfl

theorem ite_someVal {α : Type} (c : Prop) [Decidable c] (a b : α) :
    (if c then (some a : Option α) else some b) = some (if c then a else b) := by
  split_ifs <;> rfl

theorem parseStatsFields_essential : parseStatsFields "ESSENTIAL" = ESSENTIAL_FIELDS := by
  rfl

/-- The CPU-percent value the source computes on a canonical numeric
sample: 0 unless system delta, cpu delta and the previous total are all
positive, else `(cpuDelta / sysDelta) * (online_cpus || 1) * 100`. -/
def cpuPercentFormula (tu sys ptu : ℚ) (online psys : Option ℚ) : ℚ :=
  if 0 < sys - psys.getD 0 ∧ 0 < tu - ptu ∧ 0 < ptu then
    (tu - ptu) / (sys - psys.getD 0) * onlineOrOne online * 100
  else 0

theorem calculateCpuPercent_mkSample (read : String) (tu sys ptu memU memL : ℚ)
    (online psys : Option ℚ) (networks : Option (List (String × ℚ × ℚ))) :
    calculateCpuPercent (mkSample read tu sys online ptu psys memU memL networks) =
      Except.ok (some (cpuPercentFormula tu sys ptu online psys)) := by
  rcases online with _ | oq <;> rcases psys with _ | pq <;> rcases networks with _ | ns <;>
    simp [calculateCpuPercent, cpuPercentFormula, mkSample, mkCpuStats, mkPreCpuStats,
      JVal.get, lookupField, jsGet, getOpt, asNumOpt, jsOrZeroNum, jsOrOneNum, optSub,
      qGtZeroOpt, truthyOpt, onlineOrOne, Bind.bind, Except.bind, Pure.pure, Except.pure] <;>
    split_ifs <;> simp_all

/-- **C4.** On every canonical numeric raw sample that passes
`validateStats`, `calculateCpuPercent` returns exactly
`cpuPercentFormula`: 0 unless system delta > 0, cpu delta > 0 and the
previous `total_usage` > 0 all hold, otherwise
`(cpuDelta / sysDelta) * onlineCPUs * 100` with `online_cpus` defaulting
to 1 when absent; in particular a previous total of 0 forces 0
regardless of the other values, and totals 200/100 with system totals
3000/2000 and `online_cpus = 2` yield exactly 20. -/
theorem cpu_percent_formula_and_suppression (dtime : JVal → Option ℚ) (read : String)
    (tu sys ptu memU memL : ℚ) (online psys : Option ℚ)
    (networks : Option (List (String × ℚ × ℚ)))
    (hv : validateStats dtime
      (mkSample read tu sys online ptu psys memU memL networks) = true) :
    calculateCpuPercent (mkSample read tu sys online ptu psys memU memL networks) =
      Except.ok (some (cpuPercentFormula tu sys ptu online psys)) ∧
    (ptu = 0 →
      calculateCpuPercent (mkSample read tu sys online ptu psys memU memL networks) =
        Except.ok (some 0)) ∧
    calculateCpuPercent
        (mkSample "2024-01-01T00:00:00Z" 200 3000 (some 2) 100 (some 2000) 0 0 none) =
      Except.ok (some 20) := by
  refine ⟨calculateCpuPercent_mkSample read tu sys ptu memU memL online psys networks,
    ?_, ?_⟩
  · intro hz
    rw [calculateCpuPercent_mkSample read tu sys ptu memU memL online psys networks]
    simp [cpuPercentFormula, hz]
  · rw [calculateCpuPercent_mkSample]
    norm_num [cpuPercentFormula, onlineOrOne]

/-- Witness for C4 at a concrete validated sample. -/
theorem cpu_percent_formula_and_suppression_witness :
    calculateCpuPercent (mkSample "t" 200 3000 (some 2) 100 (some 2000) 5 10 none) =
      Except.ok (some (cpuPercentFormula 200 3000 100 (some 2) (some 2000))) ∧
    ((100 : ℚ) = 0 →
      calculateCpuPercent (mkSample "t" 200 3000 (some 2) 100 (some 2000) 5 10 none) =
        Except.ok (some 0)) ∧
    calculateCpuPercent
        (mkSample "2024-01-01T00:00:00Z" 200 3000 (some 2) 100 (some 2000) 0 0 none) =
      Except.ok (some 20) :=
  cpu_percent_formula_and_suppression (fun _ => some 1) "t" 200 3000 100 5 10
    (some 2) (some 2000) none (by decide)

/-- **C9.** With the essential-subset policy configured
(`STATS_FIELDS=ESSENTIAL` parses to the fixed 5-name list), every
canonical numeric raw sample accepted by validation — here carrying two
network interfaces and hence many extra derivable fields — parses to a
snapshot whose field names (timestamp aside) are exactly
`cpu_percent, mem_used, mem_total, net_in_bytes, net_out_bytes`. -/
theorem essential_field_selection (dtime : JVal → Option ℚ) (read : String)
    (tu sys ptu memU memL e0rx e0tx lorx lotx nowMs : ℚ) (online psys : Option ℚ)
    (hv : validateStats dtime (mkSample read tu sys online ptu psys memU memL
      (some [("eth0", e0rx, e0tx), ("lo", lorx, lotx)])) = true) :
    parseStatsFields "ESSENTIAL" = ESSENTIAL_FIELDS ∧
    parsedFieldKeys (parseStats dtime nowMs (parseStatsFields "ESSENTIAL")
      (mkSample read tu sys online ptu psys memU memL
        (some [("eth0", e0rx, e0tx), ("lo", lorx, lotx)]))) = some ESSENTIAL_FIELDS := by
  refine ⟨parseStatsFields_essential, ?_⟩
  simp [validateStats, validateTimestampOk, validateCpuStatsOk, validateMemoryStatsOk,
    validateNetworkStatsOk, mkSample, mkCpuStats, mkPreCpuStats, JVal.get, lookupField,
    getOpt, truthyOpt, isNumberOpt, JVal.truthy, JVal.isObjectTypeof, bne_iff_ne] at hv
  obtain ⟨⟨hr, hdt⟩, htu, hsys⟩ := hv
  rcases hd : dtime (JVal.str read) with _ | t
  · rw [hd] at hdt
    simp at hdt
  · rw [hd] at hdt
    simp at hdt
    rcases online with _ | oq <;> rcases psys with _ | pq <;>
      simp [parseStats, parsedFieldKeys, extractAllFields, extractCpuFields,
        extractMemoryFields, extractNetworkFields, extractBlockIOFields, extractPidStats,
        extractTimestampFields, extractProcessStats, extractStorageStats,
        calculateNetworkUsage, calculateCpuPercent, ite_exceptOk, ite_someVal,
        mergeFields, filterFields, parseStatsFields_essential, ESSENTIAL_FIELDS,
        lookupQField, jsOrV_none, mkSample, mkCpuStats, mkPreCpuStats, JVal.get,
        lookupField, jsGet, getOpt, asNumOpt, jsOrZeroNum, jsOrOneNum, jsOrV_num, optAdd,
        optSub, qGtZeroOpt, truthyOpt, isNumberOpt, JVal.truthy, entriesOf, List.foldlM,
        hd, hr, htu, hsys, Bind.bind, Except.bind, Pure.pure, Except.pure,
        getValidTimestamp]

/-- Witness for C9 at a concrete validated two-interface sample. -/
theorem essential_field_selection_witness :
    parseStatsFields "ESSENTIAL" = ESSENTIAL_FIELDS ∧
    parsedFieldKeys (parseStats (fun _ => some 1) 0 (parseStatsFields "ESSENTIAL")
      (mkSample "t" 200 3000 (some 2) 100 (some 2000) 5 10
        (some [("eth0", 11, 12), ("lo", 1, 2)]))) = some ESSENTIAL_FIELDS :=
  essential_field_selection (fun _ => some 1) "t" 200 3000 100 5 10 11 12 1 2 0
    (some 2) (some 2000) (by decide)

end DSS
